import Mathlib

/-!
Verification development for the `uploader` Telegram-bot backend.

The Python sources are shallowly embedded as pure Lean functions:
  * inbound Telegram payloads (`apps/telegram/telegram_models.py`) become
    plain structures carrying exactly the fields the handlers read;
  * the Django ORM store becomes an explicit `DB` value threaded through
    the handlers; `QuerySet` operations become list operations;
  * the Bot API client becomes a list of emitted `Effect`s;
  * Python exceptions (AttributeError, DoesNotExist, ...) become
    `Except String` errors;
  * external inputs (template table, membership checks, random tokens,
    clock) are collected in an `Env` record.
-/

namespace Uploader

/-- telegram_models.User — only the fields the handlers read. -/
structure TgUser where
  id : Nat
  first_name : String := ""
  last_name : Option String := none
  username : Option String := none
deriving DecidableEq, Repr

/-- telegram_models.Chat — only the fields the handlers read. -/
structure TgChat where
  id : Int
  type : String
deriving DecidableEq, Repr

/-- telegram_models.PhotoSize (payload irrelevant to the handlers). -/
structure PhotoSize where
  file_id : String := ""
deriving DecidableEq, Repr

/-- telegram_models.Message — the fields the dispatcher and handlers read.
`photo` is `Optional[List[PhotoSize]]` in the source, the other media
fields are `Optional[<object>]`; Python truthiness therefore differs for
`photo` (an empty list is falsy).  Media objects other than photo are
modelled by their `file_id`. -/
structure TgMessage where
  message_id : Nat
  chat : TgChat
  from_user : Option TgUser := none
  text : Option String := none
  photo : Option (List PhotoSize) := none
  audio : Option String := none
  video : Option String := none
  voice : Option String := none
  document : Option String := none
  sticker : Option String := none
  caption : Option String := none
deriving DecidableEq, Repr

/-- telegram_models.CallbackQuery (fields read by the handlers).
`message` is Optional in the source. -/
structure TgCallbackQuery where
  from_user : TgUser
  message : Option TgMessage := none
  data : Option String := none
deriving DecidableEq, Repr

/-- telegram_models.Update — the three members the code reads
(`message`, `callback_query`, `inline_query`).  Of an inline query only
`from_user` is ever read, so just that is kept. -/
structure TgUpdate where
  message : Option TgMessage := none
  callback_query : Option TgCallbackQuery := none
  inline_query : Option TgUser := none
deriving DecidableEq, Repr

/-- apps/account/models.py User — persistent user record. -/
structure DBUser where
  pk : Nat
  user_id : Nat
  step : String := "home"
  is_active : Bool := true
  is_superuser : Bool := false
  subscription_expires_at : Option Int := none
deriving DecidableEq, Repr

/-- apps/bot/models.py BotUpdateStatus (the singleton maintenance row). -/
structure BotStatusRec where
  is_update : Bool := false
  update_msg : String := "bot is updated !"
deriving DecidableEq, Repr

/-- apps/bot/models.py ChannelSponsor.  `chat_id` is nullable in the
source model; `other` defaults to False. -/
structure ChannelRec where
  name : String := ""
  chat_id : Option String := none
  link : String := ""
  other : Bool := false
deriving DecidableEq, Repr

/-- apps/bot/models.py Session. -/
structure SessionRec where
  id : Nat
  title : String
  content_type : String
  link : String
deriving DecidableEq, Repr

/-- apps/bot/models.py Episode. -/
structure EpisodeRec where
  id : Nat
  session_id : Nat
  link : String
  message_id : Option Int := none
  order : Nat
deriving DecidableEq, Repr

/-- apps/bot/models.py Plan (fields read by keyboards/handlers). -/
structure PlanRec where
  pk : Nat
  name : String
  is_active : Bool := true
deriving DecidableEq, Repr

/-- The persistent store: one field per Django table that the handlers
touch, plus fresh primary keys for the rows the handlers create. -/
structure DB where
  botStatus : Option BotStatusRec := none
  users : List DBUser := []
  nextUserPk : Nat := 1
  channels : List ChannelRec := []
  sessions : List SessionRec := []
  nextSessionId : Nat := 1
  episodes : List EpisodeRec := []
  nextEpisodeId : Nat := 1
  plans : List PlanRec := []
  templates : List (String × String) := []
deriving DecidableEq, Repr

/-- External collaborators of one webhook call: Bot API answers, the
random token for this call's link generation, environment variables and
the clock.  `isJoin` is the Bot API membership check
(`bot.is_join_channel`), `copy_ok`/`copied_message_id` the outcome of
`bot.copy_message`, `rand` the `secrets.token_urlsafe` value. -/
structure Env where
  isJoin : Option String → Option Int → Bool := fun _ _ => true
  rand : String := "tok"
  now : Int := 0
  fmtDate : Int → String := fun _ => ""
  bot_username : String := "bot"
  channel_id : Int := 0
  private_channel_id : String := ""
  extra_caption : String := ""
  free_download : Bool := false
  copy_ok : Bool := true
  copied_message_id : Int := 0

/-- Inline keyboard button (the JSON dict built in keyboard.py). -/
structure InlineBtn where
  text : String
  url : Option String := none
  callback_data : Option String := none
deriving DecidableEq, Repr

/-- Reply or inline keyboard payload (keyboard.py builds these dicts and
serializes them; we keep the structure). -/
inductive Markup where
  | reply (rows : List (List String)) (resize : Bool)
  | inlineKb (rows : List (List InlineBtn))
deriving DecidableEq, Repr

/-- One outbound Bot API call. -/
inductive Effect where
  | sendMessage (chat_id : Option Int) (text : String)
      (parse_mode : Option String) (reply_markup : Option Markup)
  | deleteMessage (chat_id : Option Int) (message_id : Nat)
  | editMessageText (chat_id : Option Int) (message_id : Nat)
      (text : String) (reply_markup : Option Markup)
  | copyMessage (chat_id : Int) (from_chat_id : Option Int) (message_id : Nat)
  | spawnThread (name : String)
deriving DecidableEq, Repr

/-- Result of one handler invocation: the updated store and the emitted
Bot API calls, or a raised Python exception. -/
abbrev HResult := Except String (DB × List Effect)

/-- Python `str.startswith` (structurally recursive so that concrete
instances evaluate). -/
def strStartsWith (s pre : String) : Bool := pre.data.isPrefixOf s.data

/-- Character-level splitter behind `str.split(sep)`. -/
def splitOnChar (c : Char) : List Char → List (List Char)
  | [] => [[]]
  | x :: xs =>
    if x = c then [] :: splitOnChar c xs
    else
      match splitOnChar c xs with
      | [] => [[x]]
      | h :: t => (x :: h) :: t

/-- Python `s.split(":")`. -/
def splitColon (s : String) : List String :=
  (splitOnChar ':' s.data).map (fun l => ⟨l⟩)

/-- A character Python's `str.strip()` removes. -/
def isPySpace (c : Char) : Bool := c = ' ' || c = '\t' || c = '\n' || c = '\r'

/-- Python `str.strip()`. -/
def strStrip (s : String) : String :=
  ⟨((s.data.dropWhile isPySpace).reverse.dropWhile isPySpace).reverse⟩

/-- utils/utils.py generate_unique_link: prefix, underscore, token. -/
def generate_unique_link (pre : String) (token : String) : String :=
  pre ++ "_" ++ token

/-- utils/utils.py update_object (only ever called with a `step` kwarg):
`obj.__class__.objects.filter(pk=obj.pk).update(step=...)`.  Called on
`None` it raises AttributeError. -/
def update_object (db : DB) (obj : Option DBUser) (step : String) :
    Except String DB :=
  match obj with
  | none => .error "AttributeError: NoneType has no attribute pk"
  | some u =>
      .ok { db with users :=
        db.users.map (fun x => if x.pk = u.pk then { x with step := step } else x) }

/-- Python `s.split(":")[0]` — the step prefix up to (not including) the first
colon; the whole string when there is no colon. -/
def prefixBeforeColon (s : String) : String :=
  (splitColon s).headD s

/-- The two-pass step lookup every router performs:
`steps.get(step)` then `steps.get(step.split(":")[0])`. -/
def lookup2 {α : Type} (m : List (String × α)) (s : String) : Option α :=
  match m.lookup s with
  | some f => some f
  | none => m.lookup (prefixBeforeColon s)

/-- Models `order_by("-order")` followed by taking the first row: the maximum of
the list, `none` on an empty queryset. -/
def listMax : List Nat → Option Nat
  | [] => none
  | x :: xs =>
      match listMax xs with
      | none => some x
      | some m => some (Nat.max x m)

/-- Stable-ish insertion used to model `order_by(key)` ascending. -/
def insertByKey {α : Type} (key : α → Nat) (x : α) : List α → List α
  | [] => [x]
  | y :: ys => if key x ≤ key y then x :: y :: ys else y :: insertByKey key x ys

/-- Models `order_by(<numeric column>)` ascending. -/
def sortOn {α : Type} (key : α → Nat) (l : List α) : List α :=
  l.foldr (insertByKey key) []

/-- Models `order_by("-other")`: rows with the flag set first.  A boolean sort
key descending is exactly a stable partition. -/
def orderByOtherDesc (cs : List ChannelRec) : List ChannelRec :=
  cs.filter (fun c => c.other) ++ cs.filter (fun c => ¬ c.other)

/-- Python `str.format(**kwargs)` restricted to plain placeholders. -/
def formatMsg (t : String) : List (String × String) → String
  | [] => t
  | kv :: rest => formatMsg (t.replace ("\x7b" ++ kv.1 ++ "\x7d") kv.2) rest

/-- apps/common/_message.py MessageManager.get_message:
`Message.objects.get(name=name.strip())` then format; raises
DoesNotExist when the template row is missing. -/
def get_message (db : DB) (name : String) (kwargs : List (String × String)) :
    Except String String :=
  match db.templates.lookup (strStrip name) with
  | none => .error "Message.DoesNotExist"
  | some t => .ok (if kwargs.isEmpty then t else formatMsg t kwargs)

/-! ## keyboard.py -/

/-- ReplyKeyboardMarkup.home_keyboard. -/
def ReplyKb.home_keyboard : Markup :=
  .reply [["اطلاعات حساب 👤", "🛒 خرید اشتراک"],
          ["گیفت اشتراک به دوستان 🎁", "💌 حمایت از مجموعه"]] true

/-- ReplyKeyboardMarkup.admin_home_keyboard. -/
def ReplyKb.admin_home_keyboard : Markup :=
  .reply [["پیام همگانی 📡", "اپلود ⬇️"], ["ویرایش ⚙️", "اطلاعات کاربر 💹"]] true

/-- ReplyKeyboardMarkup.admin_upload_keyboard. -/
def ReplyKb.admin_upload_keyboard : Markup :=
  .reply [["اپلود سریال ➕", "اپلود فیلم ➕"], ["بازگشت"]] true

/-- ReplyKeyboardMarkup.cancel_keyboard. -/
def ReplyKb.cancel_keyboard : Markup :=
  .reply [["لغو اپلود ❌", "اتمام اپلود ✅"]] true

/-- ReplyKeyboardMarkup.back_keyboard. -/
def ReplyKb.back_keyboard : Markup :=
  .reply [["بازگشت"]] true

/-- InlineKeyboardMarkup.pay_plan_keyboard: one row per active plan
ordered by pk, callback data `pay:<pk>`. -/
def InlineKb.pay_plan_keyboard (db : DB) : Markup :=
  .inlineKb ((sortOn (fun p => p.pk) (db.plans.filter (fun p => p.is_active))).map
    (fun p => [{ text := p.name, callback_data := some ("pay:" ++ toString p.pk) }]))

/-- InlineKeyboardMarkup.sponsor_channel_keyboard: one url row per channel
ordered by `-other`, then (when non-empty) a trailing confirm-membership
button whose callback key is `joined_to_sponsor`. -/
def InlineKb.sponsor_channel_keyboard (channels : List ChannelRec) : Markup :=
  let rows := (orderByOtherDesc channels).map
    (fun c => [{ text := c.name, url := some c.link : InlineBtn }])
  .inlineKb (if rows.isEmpty then rows
    else rows ++ [[{ text := "تایید عضویت ✅", callback_data := some "joined_to_sponsor" }]])

/-- InlineKeyboardMarkup.edit_session_keyboard. -/
def InlineKb.edit_session_keyboard (env : Env) (db : DB) (s : SessionRec) : Markup :=
  let rows := (sortOn (fun e => e.order) (db.episodes.filter (fun e => e.session_id = s.id))).map
    (fun e =>
      [{ text := "🎞️ قسمت " ++ toString e.order, callback_data := some "_" : InlineBtn },
       { text := "🗑️ حذف", callback_data := some ("edit_session:delete_e:" ++ toString e.id) },
       { text := "🔗 لینک",
         url := some ("https://t.me/c/" ++ env.private_channel_id ++ "/"
           ++ (match e.message_id with | some m => toString m | none => "None")) }])
  .inlineKb (if rows.isEmpty then rows
    else rows
      ++ [[{ text := "➕ افزودن پارت جدید",
             callback_data := some ("edit_session:add_e:" ++ toString s.id) }]]
      ++ [[{ text := "❌ حذف کل سشن",
             callback_data := some ("edit_session:delete_s:" ++ toString s.id) }]])

/-- InlineKeyboardMarkup.sure_delete_object_keyboard. -/
def InlineKb.sure_delete_object_keyboard (object_id : Nat) (object_type : String) : Markup :=
  .inlineKb [[
    { text := "✅ بله، حذف کن",
      callback_data := some ("sure_delete_object:yes:" ++ object_type ++ ":" ++ toString object_id) },
    { text := "❌ نه، منصرف شدم",
      callback_data := some ("sure_delete_object:no:" ++ object_type ++ ":" ++ toString object_id) }]]

/-! ## models.py operations -/

/-- Session.save on creation: auto-generate the `S_`-prefixed link when
blank (objects.create never passes one). -/
def Session.create (env : Env) (db : DB) (title : String) (content_type : String) :
    DB × SessionRec :=
  let s : SessionRec :=
    { id := db.nextSessionId, title := title, content_type := content_type,
      link := generate_unique_link "S" env.rand }
  ({ db with sessions := db.sessions ++ [s], nextSessionId := db.nextSessionId + 1 }, s)

/-- Episode.calc_order: existing orders of the session sorted descending,
first one plus 1, else 1. -/
def Episode.calc_order (episodes : List EpisodeRec) (session_id : Nat) : Nat :=
  match listMax ((episodes.filter (fun e => e.session_id = session_id)).map
      (fun e => e.order)) with
  | some m => m + 1
  | none => 1

/-- Episode.save on creation: generate the `E_` link when blank and
assign `calc_order` of the parent session. -/
def Episode.create (env : Env) (db : DB) (session_id : Nat) (message_id : Option Int) :
    DB × EpisodeRec :=
  let e : EpisodeRec :=
    { id := db.nextEpisodeId, session_id := session_id,
      link := generate_unique_link "E" env.rand, message_id := message_id,
      order := Episode.calc_order db.episodes session_id }
  ({ db with episodes := db.episodes ++ [e], nextEpisodeId := db.nextEpisodeId + 1 }, e)

/-- Django `session.delete()`: cascade-deletes the session's episodes
(`on_delete=models.CASCADE`). -/
def Session.deleteRow (db : DB) (sid : Nat) : DB :=
  { db with sessions := db.sessions.filter (fun s => s.id ≠ sid),
            episodes := db.episodes.filter (fun e => e.session_id ≠ sid) }

/-- Django `Episode.objects.filter(pk=...).delete()`. -/
def Episode.deleteRow (db : DB) (eid : Nat) : DB :=
  { db with episodes := db.episodes.filter (fun e => e.id ≠ eid) }

/-- Session / Episode get_link: `https://t.me/<bot>/?start=<link>`. -/
def share_link (env : Env) (link : String) : String :=
  "https://t.me/" ++ env.bot_username ++ "/?start=" ++ link

/-- account/models.py User.subscription_info. -/
def subscription_info (env : Env) (u : DBUser) : String :=
  match u.subscription_expires_at with
  | none => "No Subscription"
  | some exp =>
      if exp ≤ env.now then "No Subscription"
      else if env.now + 36500 * 86400 < exp then "Unlimited"
      else env.fmtDate exp

/-- account/models.py User.has_active_subscription. -/
def has_active_subscription (env : Env) (u : DBUser) : Bool :=
  match u.subscription_expires_at with
  | none => false
  | some exp => env.now < exp

/-! ## base_handlers.py accessors -/

/-- BaseHandler.chat: the chat of the message, else of the callback
query's message.  When the callback query has no message the source
dereferences None (`callback_query.message.chat`). -/
def BaseHandler.chat (upd : TgUpdate) : Except String (Option TgChat) :=
  match upd.message with
  | some m => .ok (some m.chat)
  | none =>
      match upd.callback_query with
      | some cb =>
          match cb.message with
          | some m => .ok (some m.chat)
          | none => .error "AttributeError: NoneType has no attribute chat"
      | none => .ok none

/-- BaseHandler.chat_id. -/
def BaseHandler.chatId (upd : TgUpdate) : Except String (Option Int) :=
  (BaseHandler.chat upd).map (fun c => c.map (fun x => x.id))

/-- BaseHandler.user: sender taken from message, callback query or inline
query. -/
def BaseHandler.tgUser (upd : TgUpdate) : Option TgUser :=
  match upd.message with
  | some m => m.from_user
  | none =>
      match upd.callback_query with
      | some cb => some cb.from_user
      | none => upd.inline_query

/-- BaseHandler.user_obj (cached_property): None without a sender or
outside private chats, otherwise get-or-create by Telegram user id with
step defaulting to "home". -/
def resolveUserObj (db : DB) (upd : TgUpdate) :
    Except String (DB × Option DBUser) := do
  match BaseHandler.tgUser upd with
  | none => .ok (db, none)
  | some tu =>
      let c ← BaseHandler.chat upd
      match c with
      | some ch =>
          if ch.type = "private" then
            match db.users.find? (fun u => u.user_id = tu.id) with
            | some u => .ok (db, some u)
            | none =>
                let u : DBUser := { pk := db.nextUserPk, user_id := tu.id }
                .ok ({ db with users := db.users ++ [u],
                                nextUserPk := db.nextUserPk + 1 }, some u)
          else .ok (db, none)
      | none => .ok (db, none)

/-- The `self.update.message.text` read performed by the step handlers (raises when
the update carries no message). -/
def msgText (upd : TgUpdate) : Except String (Option String) :=
  match upd.message with
  | some m => .ok m.text
  | none => .error "AttributeError: NoneType has no attribute text"

/-- The fixed text of the block notice. -/
def blockedText : String := "شما در ربات بلاک شده اید"

/-- BaseHandler.is_update_mode.  `BotUpdateStatus.objects.first()` is
dereferenced unconditionally; when the flag is set `self.user_obj` is
dereferenced without a None check.  Returns the notice effect when the
gate aborts handling. -/
def is_update_mode (db : DB) (upd : TgUpdate) :
    Except String (DB × Option Effect) :=
  match db.botStatus with
  | none => .error "AttributeError: NoneType has no attribute is_update"
  | some st =>
      if st.is_update then do
        let (db1, uo) ← resolveUserObj db upd
        match uo with
        | none => .error "AttributeError: NoneType has no attribute is_superuser"
        | some u =>
            if u.is_superuser then .ok (db1, none)
            else do
              let cid ← BaseHandler.chatId upd
              .ok (db1, some (.sendMessage cid st.update_msg (some "html") none))
      else .ok (db, none)

/-- BaseHandler.is_user_block: when a user record exists and is inactive,
send the block notice and abort. -/
def is_user_block (db : DB) (upd : TgUpdate) :
    Except String (DB × Option Effect) := do
  let (db1, uo) ← resolveUserObj db upd
  match uo with
  | some u =>
      if ¬ u.is_active then do
        let cid ← BaseHandler.chatId upd
        .ok (db1, some (.sendMessage cid blockedText (some "html") none))
      else .ok (db1, none)
  | none => .ok (db1, none)

/-- The gate prologue every handler's `handle()` starts with:
`if self.is_update_mode(): return` then `if self.is_user_block(): return`,
followed by the handler-specific step logic. -/
def withGates (db : DB) (upd : TgUpdate)
    (stepPhase : DB → HResult) : HResult := do
  let (db1, g1) ← is_update_mode db upd
  match g1 with
  | some e => .ok (db1, [e])
  | none => do
      let (db2, g2) ← is_user_block db1 upd
      match g2 with
      | some e => .ok (db2, [e])
      | none => stepPhase db2

/-! ## decorator.py -/

/-- The loop body of channel_sponsor: configured channels not flagged
`other` that the current chat has not joined. -/
def unjoinedChannels (env : Env) (db : DB) (cid : Option Int) : List ChannelRec :=
  db.channels.filter (fun c => ¬ c.other ∧ ¬ env.isJoin c.chat_id cid)

/-- decorator.channel_sponsor: collect the chat ids of configured
channels that are not flagged `other` and that the current chat has not
joined; when any exist, send one prompt (template with hardcoded
fallback) whose inline keyboard is built from
`channels.filter(chat_id__in=not_join_channel_chat_id)` — SQL `IN`
semantics: a NULL `chat_id` never matches.  Returns the prompt effect
when handling is taken over. -/
def channel_sponsor (env : Env) (db : DB) (upd : TgUpdate) :
    Except String (Option Effect) :=
  let channels := db.channels
  let msg := match get_message db "sponsor_channels_message" [] with
    | .ok t => t
    | .error _ => "please join in the sponsor channel"
  if channels.isEmpty then .ok none
  else do
    let cid ← BaseHandler.chatId upd
    let notJoinIds := (unjoinedChannels env db cid).map (fun c => c.chat_id)
    if notJoinIds.isEmpty then .ok none
    else
      let filtered := channels.filter (fun c =>
        match c.chat_id with
        | none => false
        | some x => notJoinIds.contains (some x))
      .ok (some (.sendMessage cid msg (some "html")
        (some (InlineKb.sponsor_channel_keyboard filtered))))

/-- decorator.sponsor_required: run the wrapped function only when
channel_sponsor did not take over. -/
def sponsor_required (env : Env) (db : DB) (upd : TgUpdate)
    (body : DB → HResult) : HResult := do
  match ← channel_sponsor env db upd with
  | some e => .ok (db, [e])
  | none => body db

/-! ## handlers/messages.py — AdminMessageHandler -/

/-- The type of a routed step-handler method. -/
abbrev StepFn := Env → DB → TgUpdate → HResult

/-- AdminMessageHandler.admin_handler: back to the admin home step. -/
def AdminMessageHandler.admin_handler (env : Env) (db : DB) (upd : TgUpdate) : HResult := do
  let _ := env
  let (db1, uo) ← resolveUserObj db upd
  let db2 ← update_object db1 uo "admin_home"
  let cid ← BaseHandler.chatId upd
  .ok (db2, [.sendMessage cid "Welcome To Admin panel" none
    (some ReplyKb.admin_home_keyboard)])

/-- AdminMessageHandler.admin_user_info. -/
def AdminMessageHandler.admin_user_info (env : Env) (db : DB) (upd : TgUpdate) : HResult := do
  let t ← msgText upd
  if t = some "بازگشت" then AdminMessageHandler.admin_handler env db upd
  else
    let target := t.bind (fun s => s.toNat?.bind
      (fun n => db.users.find? (fun u => u.user_id = n)))
    let cid ← BaseHandler.chatId upd
    match target with
    | none => .ok (db, [.sendMessage cid "یوزر پیدا نشد" (some "markdown") none])
    | some tu => do
        let plan_title := subscription_info env tu
        let txt ← get_message db "user_info"
          [("user_id", (t.getD "None")), ("plan_title", plan_title),
           ("last_plan", "1"), ("payment_count", "1")]
        .ok (db, [.sendMessage cid txt (some "markdown")
          (some ReplyKb.back_keyboard)])

/-- AdminMessageHandler.admin_home: route to the upload or user-info
wizard steps. -/
def AdminMessageHandler.admin_home (env : Env) (db : DB) (upd : TgUpdate) : HResult := do
  let _ := env
  let t ← msgText upd
  if t = some "اپلود ⬇️" then do
    let (db1, uo) ← resolveUserObj db upd
    let db2 ← update_object db1 uo "admin_upload"
    let cid ← BaseHandler.chatId upd
    .ok (db2, [.sendMessage cid "برای اپلود سریال و یا فیلم تک قسمتی یکی رو انتخاب کن"
      (some "markdown") (some ReplyKb.admin_upload_keyboard)])
  else if t = some "اطلاعات کاربر 💹" then do
    let (db1, uo) ← resolveUserObj db upd
    let db2 ← update_object db1 uo "admin_user_info"
    let cid ← BaseHandler.chatId upd
    .ok (db2, [.sendMessage cid "لطفا ایدی عددی کاربر مورد نظر رو ارسال کن"
      (some "markdown") (some ReplyKb.back_keyboard)])
  else .ok (db, [])

/-- AdminMessageHandler.admin_upload: choose movie or series upload. -/
def AdminMessageHandler.admin_upload (env : Env) (db : DB) (upd : TgUpdate) : HResult := do
  let t ← msgText upd
  if t = some "بازگشت" then AdminMessageHandler.admin_handler env db upd
  else if t = some "اپلود فیلم ➕" then do
    let (db1, uo) ← resolveUserObj db upd
    let db2 ← update_object db1 uo "get_title:movie"
    let cid ← BaseHandler.chatId upd
    .ok (db2, [.sendMessage cid "اسم فیلم را ارسال کنید" (some "markdown")
      (some ReplyKb.back_keyboard)])
  else if t = some "اپلود سریال ➕" then do
    let (db1, uo) ← resolveUserObj db upd
    let db2 ← update_object db1 uo "get_title:series"
    let cid ← BaseHandler.chatId upd
    .ok (db2, [.sendMessage cid "اسم سریال را ارسال کنید" (some "markdown")
      (some ReplyKb.back_keyboard)])
  else .ok (db, [])

/-- AdminMessageHandler.get_title: on the back keyword return to
admin_upload; on any other text split the step on `:` to read the
content type, create the Session (title = the message text) and advance
to `get_episode:<new id>`. -/
def AdminMessageHandler.get_title (env : Env) (db : DB) (upd : TgUpdate) : HResult := do
  let t ← msgText upd
  if t = some "بازگشت" then do
    let (db1, uo) ← resolveUserObj db upd
    let db2 ← update_object db1 uo "admin_upload"
    let cid ← BaseHandler.chatId upd
    .ok (db2, [.sendMessage cid "برای اپلود سریال و یا فیلم تک قسمتی یکی رو انتخاب کن"
      (some "markdown") (some ReplyKb.admin_upload_keyboard)])
  else do
    let (db1, uo) ← resolveUserObj db upd
    match uo with
    | none => .error "AttributeError: NoneType has no attribute step"
    | some u =>
        match splitColon u.step with
        | [_, content_type] =>
            match t with
            | none => .error "IntegrityError: title may not be NULL"
            | some title => do
                let (db2, s) := Session.create env db1 title content_type
                let db3 ← update_object db2 (some u)
                  ("get_episode:" ++ toString s.id)
                let cid ← BaseHandler.chatId upd
                .ok (db3, [.sendMessage cid "لطفا فایل مورد نظر رو ارسال کن"
                  (some "markdown") (some ReplyKb.cancel_keyboard)])
        | _ => .error "ValueError: not enough values to unpack"

/-- Lookup `Session.objects.get(id=<string>)`: the string is coerced to an
integer (ValueError otherwise) and the row must exist. -/
def getSessionByStrId (db : DB) (sid : String) : Except String SessionRec :=
  match sid.toNat? with
  | none => .error "ValueError: invalid literal for int"
  | some n =>
      match db.sessions.find? (fun s => s.id = n) with
      | some s => .ok s
      | none => .error "Session.DoesNotExist"

/-- AdminMessageHandler.get_episode (text control commands of the upload
wizard): cancel deletes the in-progress session, finish lists the
episodes and returns to admin_home. -/
def AdminMessageHandler.get_episode (env : Env) (db : DB) (upd : TgUpdate) : HResult := do
  let (db1, uo) ← resolveUserObj db upd
  match uo with
  | none => .error "AttributeError: NoneType has no attribute step"
  | some u =>
      match splitColon u.step with
      | [_, session_id] => do
          let t ← msgText upd
          if t = some "لغو اپلود ❌" then do
            let s ← getSessionByStrId db1 session_id
            let db2 := Session.deleteRow db1 s.id
            let db3 ← update_object db2 (some u) "admin_upload"
            let cid ← BaseHandler.chatId upd
            .ok (db3, [.sendMessage cid "برای اپلود سریال و یا فیلم تک قسمتی یکی رو انتخاب کن"
              (some "markdown") (some ReplyKb.admin_upload_keyboard)])
          else if t = some "اتمام اپلود ✅" then do
            let db2 ← update_object db1 (some u) "admin_home"
            let s ← getSessionByStrId db2 session_id
            let eps := sortOn (fun e => e.order)
              (db2.episodes.filter (fun e => e.session_id = s.id))
            let epis := eps.foldl (fun acc e =>
              acc ++ "[E" ++ toString e.order ++ "](" ++ share_link env e.link ++ ")\n") ""
            let txt := "✅ آپلود با موفقیت انجام شد!\n\n📌 لینک قسمت‌ها:\n" ++ epis
              ++ "\n📂 لینک کل مجموعه:\n[S" ++ s.title ++ "](" ++ share_link env s.link ++ ")"
            let cid ← BaseHandler.chatId upd
            .ok (db2, [.sendMessage cid txt (some "markdown")
              (some ReplyKb.admin_home_keyboard)])
          else .ok (db1, [])
      | _ => .error "ValueError: not enough values to unpack"

/-- AdminMessageHandler.steps. -/
def AdminMessageHandler.steps : List (String × StepFn) :=
  [("admin_home", AdminMessageHandler.admin_home),
   ("admin_upload", AdminMessageHandler.admin_upload),
   ("get_title", AdminMessageHandler.get_title),
   ("get_episode", AdminMessageHandler.get_episode),
   ("admin_user_info", AdminMessageHandler.admin_user_info)]

/-- AdminMessageHandler step routing after the gates: two-pass lookup of
the user's step, silent no-op on a full miss. -/
def AdminMessageHandler.stepPhase (env : Env) (db : DB) (upd : TgUpdate) : HResult := do
  let (db1, uo) ← resolveUserObj db upd
  match uo with
  | none => .ok (db1, [])
  | some u =>
      if u.step = "" then .ok (db1, [])
      else
        match lookup2 AdminMessageHandler.steps u.step with
        | some f => f env db1 upd
        | none => .ok (db1, [])

/-- AdminMessageHandler.handle. -/
def AdminMessageHandler.handle (env : Env) (db : DB) (upd : TgUpdate) : HResult :=
  withGates db upd (fun d => AdminMessageHandler.stepPhase env d upd)

/-! ## handlers/messages.py — MessageHandler -/

/-- MessageHandler.home body (inside the sponsor gate). -/
def MessageHandler.homeBody (env : Env) (db : DB) (upd : TgUpdate) : HResult := do
  let t ← msgText upd
  if t = some "🛒 خرید اشتراک" then do
    let cid ← BaseHandler.chatId upd
    let txt ← get_message db "payment_plan_message" []
    .ok (db, [.sendMessage cid txt (some "markdown")
      (some (InlineKb.pay_plan_keyboard db))])
  else if t = some "اطلاعات حساب 👤" then do
    let (db1, uo) ← resolveUserObj db upd
    match uo with
    | none => .error "AttributeError: NoneType has no attribute subscription_info"
    | some u => do
        let si := subscription_info env u
        let plan_days := if si = "Unlimited" then "نامحدود 💎"
          else if si = "No Subscription" then "بدون اشتراک" else si
        let cid ← BaseHandler.chatId upd
        let txt ← get_message db1 "info_plan_message"
          [("user_id", toString u.user_id), ("plan_days", plan_days)]
        .ok (db1, [.sendMessage cid txt (some "markdown") none])
  else .ok (db, [])

/-- MessageHandler.home (sponsor_required-wrapped). -/
def MessageHandler.home (env : Env) (db : DB) (upd : TgUpdate) : HResult :=
  sponsor_required env db upd (fun d => MessageHandler.homeBody env d upd)

/-- MessageHandler.steps. -/
def MessageHandler.steps : List (String × StepFn) :=
  [("home", MessageHandler.home)]

/-- MessageHandler step routing after the gates: two-pass lookup; on a
full miss with a non-empty step, delegate the whole update to
AdminMessageHandler.handle. -/
def MessageHandler.stepPhase (env : Env) (db : DB) (upd : TgUpdate) : HResult := do
  let (db1, uo) ← resolveUserObj db upd
  match uo with
  | none => .ok (db1, [])
  | some u =>
      if u.step = "" then .ok (db1, [])
      else
        match lookup2 MessageHandler.steps u.step with
        | some f => f env db1 upd
        | none => AdminMessageHandler.handle env db1 upd

/-- MessageHandler.handle. -/
def MessageHandler.handle (env : Env) (db : DB) (upd : TgUpdate) : HResult :=
  withGates db upd (fun d => MessageHandler.stepPhase env d upd)

/-! ## handlers/medias.py -/

/-- MediaHandler.get_episode: copy the media into the backup channel,
create an Episode from the resulting channel message id and reply with
the share link.  When `EXTRA_CAPTION` is falsy, `result` is never
assigned and `result['ok']` raises NameError (source slip, kept). -/
def MediaHandler.get_episode (env : Env) (db : DB) (upd : TgUpdate) : HResult := do
  let (db1, uo) ← resolveUserObj db upd
  match uo with
  | none => .error "AttributeError: NoneType has no attribute step"
  | some u =>
      match splitColon u.step with
      | [_, session_id] => do
          let s ← getSessionByStrId db1 session_id
          match upd.message with
          | none => .error "AttributeError: NoneType has no attribute caption"
          | some m =>
              if env.extra_caption = "" then
                .error "NameError: name result is not defined"
              else do
                let cid ← BaseHandler.chatId upd
                let copyEff := Effect.copyMessage env.channel_id cid m.message_id
                if env.copy_ok then
                  let (db2, e) := Episode.create env db1 s.id
                    (some env.copied_message_id)
                  let txt := "✅ آپلود با موفقیت انجام شد!\n\n📌 لینک:\n [E-"
                    ++ toString e.order ++ "](" ++ share_link env e.link ++ ")\n"
                  .ok (db2, [copyEff, .sendMessage cid txt (some "markdown") none])
                else
                  .ok (db1, [copyEff,
                    .sendMessage cid "اپلود انجام نشد مشکلی پیش امده" (some "markdown") none])
      | _ => .error "ValueError: not enough values to unpack"

/-- MediaHandler.steps. -/
def MediaHandler.steps : List (String × StepFn) :=
  [("get_episode", MediaHandler.get_episode)]

/-- MediaHandler step routing: two-pass lookup, silent no-op on miss. -/
def MediaHandler.stepPhase (env : Env) (db : DB) (upd : TgUpdate) : HResult := do
  let (db1, uo) ← resolveUserObj db upd
  match uo with
  | none => .ok (db1, [])
  | some u =>
      if u.step = "" then .ok (db1, [])
      else
        match lookup2 MediaHandler.steps u.step with
        | some f => f env db1 upd
        | none => .ok (db1, [])

/-- MediaHandler.handle. -/
def MediaHandler.handle (env : Env) (db : DB) (upd : TgUpdate) : HResult :=
  withGates db upd (fun d => MediaHandler.stepPhase env d upd)

/-! ## handlers/commands.py -/

/-- CommandHandler.start_handler body: reset the step to "home" and greet. -/
def CommandHandler.startBody (env : Env) (db : DB) (upd : TgUpdate) : HResult := do
  let _ := env
  let (db1, uo) ← resolveUserObj db upd
  let db2 ← update_object db1 uo "home"
  let cid ← BaseHandler.chatId upd
  .ok (db2, [.sendMessage cid "Home" none (some ReplyKb.home_keyboard)])

/-- CommandHandler.start_handler (sponsor_required-wrapped). -/
def CommandHandler.start_handler (env : Env) (db : DB) (upd : TgUpdate) : HResult :=
  sponsor_required env db upd (fun d => CommandHandler.startBody env d upd)

/-- CommandHandler.admin_handler. -/
def CommandHandler.admin_handler (env : Env) (db : DB) (upd : TgUpdate) : HResult := do
  let _ := env
  let (db1, uo) ← resolveUserObj db upd
  let db2 ← update_object db1 uo "admin_home"
  let cid ← BaseHandler.chatId upd
  .ok (db2, [.sendMessage cid "Welcome To Admin panel" none
    (some ReplyKb.admin_home_keyboard)])

/-- CommandHandler's command cascade (the part of `handle()` after the
gates).  The deep-link `/start <token>` path spawns
send_file_to_user_handler on a thread (fire-and-forget, modelled as a
spawn effect). -/
def CommandHandler.stepPhase (env : Env) (db : DB) (upd : TgUpdate) : HResult := do
  match upd.message with
  | none => .error "AttributeError: NoneType has no attribute text"
  | some m =>
      match m.text with
      | none => .error "AttributeError: NoneType has no attribute startswith"
      | some t =>
          if strStartsWith t "/start" then
            if t = "/start" then CommandHandler.start_handler env db upd
            else if strStartsWith t "/start " then do
              let (db1, uo) ← resolveUserObj db upd
              match uo with
              | none => .error "AttributeError: NoneType has no attribute has_active_subscription"
              | some u =>
                  if has_active_subscription env u ∨ env.free_download then
                    .ok (db1, [.spawnThread "send_file_to_user_handler"])
                  else do
                    let cid ← BaseHandler.chatId upd
                    let txt ← get_message db1 "payment_plan_message" []
                    .ok (db1, [.sendMessage cid txt (some "markdown")
                      (some (InlineKb.pay_plan_keyboard db1))])
            else .ok (db, [])
          else if strStartsWith t "/help" then do
            let cid ← BaseHandler.chatId upd
            .ok (db, [.sendMessage cid "Help Command" none none])
          else if strStartsWith t "/admin" then do
            let (db1, uo) ← resolveUserObj db upd
            match uo with
            | none => .error "AttributeError: NoneType has no attribute is_superuser"
            | some u =>
                if u.is_superuser then CommandHandler.admin_handler env db1 upd
                else .ok (db1, [])
          else .ok (db, [])

/-- CommandHandler.handle. -/
def CommandHandler.handle (env : Env) (db : DB) (upd : TgUpdate) : HResult :=
  withGates db upd (fun d => CommandHandler.stepPhase env d upd)

/-! ## handlers/callback_queries.py -/

/-- The read `self.update.callback_query.message.message_id` (raises when the
callback query carries no message). -/
def cbMessageId (cb : TgCallbackQuery) : Except String Nat :=
  match cb.message with
  | some m => .ok m.message_id
  | none => .error "AttributeError: NoneType has no attribute message_id"

/-- CallBackQueryHandler.joined_channel_sponsor_handler body. -/
def CallBackQueryHandler.joinedBody (env : Env) (db : DB) (upd : TgUpdate)
    (cb : TgCallbackQuery) : HResult := do
  let _ := env
  let cid ← BaseHandler.chatId upd
  let mid ← cbMessageId cb
  let (db1, uo) ← resolveUserObj db upd
  let db2 ← update_object db1 uo "home"
  .ok (db2, [.deleteMessage cid mid, .sendMessage cid "Home" none none])

/-- CallBackQueryHandler.joined_channel_sponsor_handler
(sponsor_required-wrapped). -/
def CallBackQueryHandler.joined_channel_sponsor_handler (env : Env) (db : DB)
    (upd : TgUpdate) (cb : TgCallbackQuery) : HResult :=
  sponsor_required env db upd (fun d => CallBackQueryHandler.joinedBody env d upd cb)

/-- CallBackQueryHandler.payment_plan_handler: looks the plan up and then
does nothing (stubbed flow in source). -/
def CallBackQueryHandler.payment_plan_handler (env : Env) (db : DB) (upd : TgUpdate)
    (cb : TgCallbackQuery) : HResult := do
  let _ := env
  let _ := upd
  match splitColon (cb.data.getD "") with
  | [_, plan_id] =>
      match plan_id.toNat? with
      | none => .error "ValueError: invalid literal for int"
      | some n =>
          match db.plans.find? (fun p => p.pk = n) with
          | some _ => .ok (db, [])
          | none => .error "Plan.DoesNotExist"
  | _ => .error "ValueError: not enough values to unpack"

/-- CallBackQueryHandler._build_session_info_message (refreshes the
session and counts its episodes). -/
def buildSessionInfoMessage (db : DB) (s : SessionRec) : String :=
  let t := if s.content_type = "series" then "سریال" else "فیلم"
  "📌 *اطلاعات سشن*\n\n🎬 *اسم سشن:* `" ++ s.title ++ "`\n📺 *تعداد قسمت‌ها:* `"
    ++ toString (db.episodes.filter (fun e => e.session_id = s.id)).length
    ++ "`\n📂 *نوع:* `" ++ t ++ "`\n"

/-- CallBackQueryHandler._confirm_delete for an episode or a session. -/
def CallBackQueryHandler.confirm_delete (env : Env) (db : DB) (upd : TgUpdate)
    (cb : TgCallbackQuery) (found : Option Nat) (object_type : String) : HResult := do
  let _ := env
  let cid ← BaseHandler.chatId upd
  match found with
  | none => .ok (db, [.sendMessage cid "❌ مورد مورد نظر پیدا نشد." none none])
  | some pk => do
      let mid ← cbMessageId cb
      .ok (db, [.editMessageText cid mid "🚨 هشدار: این عملیات غیرقابل بازگشت است!\nآیا مطمئن هستید؟"
        (some (InlineKb.sure_delete_object_keyboard pk object_type))])

/-- CallBackQueryHandler._add_episode. -/
def CallBackQueryHandler.add_episode (env : Env) (db : DB) (upd : TgUpdate)
    (session_id : String) : HResult := do
  let _ := env
  match session_id.toNat?.bind (fun n => db.sessions.find? (fun s => s.id = n)) with
  | none => do
      let cid ← BaseHandler.chatId upd
      .ok (db, [.sendMessage cid "❌ سشن پیدا نشد." none none])
  | some s => do
      let (db1, uo) ← resolveUserObj db upd
      let db2 ← update_object db1 uo ("get_episode:" ++ toString s.id)
      let cid ← BaseHandler.chatId upd
      .ok (db2, [.sendMessage cid "لطفا فایل مورد نظر رو ارسال کن" (some "markdown")
        (some ReplyKb.cancel_keyboard)])

/-- CallBackQueryHandler.edit_session_handler. -/
def CallBackQueryHandler.edit_session_handler (env : Env) (db : DB) (upd : TgUpdate)
    (cb : TgCallbackQuery) : HResult := do
  match splitColon (cb.data.getD "") with
  | [_, operation, object_id] =>
      if operation = "delete_e" then
        CallBackQueryHandler.confirm_delete env db upd cb
          ((object_id.toNat?.bind (fun n => db.episodes.find? (fun e => e.id = n))).map
            (fun e => e.id)) "e"
      else if operation = "delete_s" then
        CallBackQueryHandler.confirm_delete env db upd cb
          ((object_id.toNat?.bind (fun n => db.sessions.find? (fun s => s.id = n))).map
            (fun s => s.id)) "s"
      else if operation = "add_e" then
        CallBackQueryHandler.add_episode env db upd object_id
      else do
        let cid ← BaseHandler.chatId upd
        .ok (db, [.sendMessage cid "❌ عملیات ناشناخته است." none none])
  | _ => .error "ValueError: not enough values to unpack"

/-- CallBackQueryHandler._get_session. -/
def getSessionOfObject (db : DB) (object_type : String) (object_id : String) :
    Option SessionRec :=
  if object_type = "s" then
    object_id.toNat?.bind (fun n => db.sessions.find? (fun s => s.id = n))
  else if object_type = "e" then
    (object_id.toNat?.bind (fun n => db.episodes.find? (fun e => e.id = n))).bind
      (fun e => db.sessions.find? (fun s => s.id = e.session_id))
  else none

/-- CallBackQueryHandler.sure_delete_object_handler. -/
def CallBackQueryHandler.sure_delete_object_handler (env : Env) (db : DB)
    (upd : TgUpdate) (cb : TgCallbackQuery) : HResult := do
  match splitColon (cb.data.getD "") with
  | [_, operation, object_type, object_id] => do
      let cid ← BaseHandler.chatId upd
      match getSessionOfObject db object_type object_id with
      | none => .ok (db, [.sendMessage cid "❌ سشن یا اپیزود مورد نظر پیدا نشد." none none])
      | some s =>
          if operation = "no" then do
            let mid ← cbMessageId cb
            .ok (db, [.editMessageText cid mid (buildSessionInfoMessage db s)
              (some (InlineKb.edit_session_keyboard env db s))])
          else if object_type = "s" then do
            let (db1, uo) ← resolveUserObj db upd
            let db2 ← update_object db1 uo "admin_home"
            let db3 := Session.deleteRow db2 s.id
            .ok (db3, [.sendMessage cid "✅ سشن مورد نظر حذف شد." (some "markdown")
              (some ReplyKb.admin_home_keyboard)])
          else if object_type = "e" then do
            let db1 := match object_id.toNat? with
              | some n => Episode.deleteRow db n
              | none => db
            let mid ← cbMessageId cb
            .ok (db1, [.editMessageText cid mid (buildSessionInfoMessage db1 s)
              (some (InlineKb.edit_session_keyboard env db1 s))])
          else .ok (db, [])
  | _ => .error "ValueError: not enough values to unpack"

/-- The type of a callback-routed method. -/
abbrev CbFn := Env → DB → TgUpdate → TgCallbackQuery → HResult

/-- CallBackQueryHandler.callback_handlers. -/
def CallBackQueryHandler.callback_handlers : List (String × CbFn) :=
  [("joined_to_sponsor", CallBackQueryHandler.joined_channel_sponsor_handler),
   ("edit_session", CallBackQueryHandler.edit_session_handler),
   ("sure_delete_object", CallBackQueryHandler.sure_delete_object_handler),
   ("pay", CallBackQueryHandler.payment_plan_handler)]

/-- CallBackQueryHandler routing after the gates: single lookup on the
callback data's first colon-delimited segment, silent no-op on miss. -/
def CallBackQueryHandler.stepPhase (env : Env) (db : DB) (upd : TgUpdate) : HResult :=
  match upd.callback_query with
  | none => .error "AttributeError: NoneType has no attribute data"
  | some cb =>
      let data := cb.data.getD ""
      let baseKey := (splitColon data).headD data
      match CallBackQueryHandler.callback_handlers.lookup baseKey with
      | some f => f env db upd cb
      | none => .ok (db, [])

/-- CallBackQueryHandler.handle. -/
def CallBackQueryHandler.handle (env : Env) (db : DB) (upd : TgUpdate) : HResult :=
  withGates db upd (fun d => CallBackQueryHandler.stepPhase env d upd)

/-! ## dispatcher.py and bot/views.py -/

/-- Which handler family an update is routed to. -/
inductive HandlerKind where
  | command
  | media
  | message
  | callbackQuery
deriving DecidableEq, Repr

/-- Python truthiness of the six media fields tested by the dispatcher:
`photo` is a list (empty ⇒ falsy), the rest are objects. -/
def mediaTruthy (m : TgMessage) : Bool :=
  (match m.photo with | some l => !l.isEmpty | none => false)
  || m.audio.isSome || m.video.isSome || m.voice.isSome
  || m.document.isSome || m.sticker.isSome

/-- Dispatcher.dispatch's classification cascade. -/
def Dispatcher.route (upd : TgUpdate) : HandlerKind :=
  match upd.message with
  | some m =>
      if (match m.text with | some t => strStartsWith t "/" | none => false) then
        .command
      else if mediaTruthy m then .media
      else .message
  | none =>
      match upd.callback_query with
      | some _ => .callbackQuery
      | none => .message

/-- The step logic (post-gate part of `handle()`) of each handler family. -/
def stepPhaseOf : HandlerKind → Env → DB → TgUpdate → HResult
  | .command => CommandHandler.stepPhase
  | .media => MediaHandler.stepPhase
  | .message => MessageHandler.stepPhase
  | .callbackQuery => CallBackQueryHandler.stepPhase

/-- Dispatcher.dispatch: classify and run the matching handler's
`handle()`. -/
def Dispatcher.dispatch (env : Env) (db : DB) (upd : TgUpdate) : HResult :=
  match Dispatcher.route upd with
  | .command => CommandHandler.handle env db upd
  | .media => MediaHandler.handle env db upd
  | .message => MessageHandler.handle env db upd
  | .callbackQuery => CallBackQueryHandler.handle env db upd

/-- The HTTP response of the webhook view. -/
structure HttpResponse where
  status : Nat
  ok : Bool
deriving DecidableEq, Repr

/-- bot/views.py TelegramWebhookView.post: deserialize and dispatch
inside a try/except that logs and suppresses every exception; always
answer `200 {"ok": true}`.  The second component is the surviving
processing outcome (`none` when an exception was swallowed). -/
def TelegramWebhookView.post (env : Env) (db : DB)
    (payload : Except String TgUpdate) : HttpResponse × Option (DB × List Effect) :=
  match payload with
  | .error _ => (⟨200, true⟩, none)
  | .ok upd =>
      match Dispatcher.dispatch env db upd with
      | .error _ => (⟨200, true⟩, none)
      | .ok r => (⟨200, true⟩, some r)

/-! ## Helper lemmas -/

/-- Inversion of a successful user resolution: the update has a sender in
a private chat, and the resulting store contains the returned record
under the sender's Telegram id. -/
theorem resolveUserObj_found {db db1 : DB} {upd : TgUpdate} {u : DBUser}
    (h : resolveUserObj db upd = .ok (db1, some u)) :
    ∃ tu ch, BaseHandler.tgUser upd = some tu
      ∧ BaseHandler.chat upd = .ok (some ch)
      ∧ ch.type = "private"
      ∧ u.user_id = tu.id
      ∧ db1.users.find? (fun x => x.user_id = tu.id) = some u := by
  unfold resolveUserObj at h
  cases htu : BaseHandler.tgUser upd with
  | none => rw [htu] at h; simp at h
  | some tu =>
    rw [htu] at h
    cases hch : BaseHandler.chat upd with
    | error e => rw [hch] at h; simp [Bind.bind, Except.bind] at h
    | ok c =>
      rw [hch] at h
      simp only [Bind.bind, Except.bind] at h
      cases c with
      | none => simp at h
      | some ch =>
        dsimp only at h
        by_cases hty : ch.type = "private"
        · rw [if_pos hty] at h
          cases hf : db.users.find? (fun x => x.user_id = tu.id) with
          | some u0 =>
            rw [hf] at h
            simp at h
            obtain ⟨hdb, hu⟩ := h
            refine ⟨tu, ch, rfl, rfl, hty, ?_, ?_⟩
            · have := List.find?_some hf
              simp at this
              simp [← hu, this]
            · rw [← hdb, ← hu]; exact hf
          | none =>
            rw [hf] at h
            simp at h
            obtain ⟨hdb, hu⟩ := h
            refine ⟨tu, ch, rfl, rfl, hty, by simp [← hu], ?_⟩
            rw [← hdb]
            simp only [List.find?_append, hf, Option.or]
            simp [List.find?, ← hu]
        · rw [if_neg hty] at h
          simp at h

/-- Resolving twice is idempotent (`user_obj` is a cached property; the
second access finds the row created or found by the first). -/
theorem resolveUserObj_idem {db db1 : DB} {upd : TgUpdate} {u : DBUser}
    (h : resolveUserObj db upd = .ok (db1, some u)) :
    resolveUserObj db1 upd = .ok (db1, some u) := by
  obtain ⟨tu, ch, htu, hch, hty, _, hf⟩ := resolveUserObj_found h
  unfold resolveUserObj
  rw [htu, hch]
  simp [Bind.bind, Except.bind, hty, hf]

/-- The chat id of an update whose chat resolves. -/
theorem chatId_of_chat {upd : TgUpdate} {ch : TgChat}
    (h : BaseHandler.chat upd = .ok (some ch)) :
    BaseHandler.chatId upd = .ok (some ch.id) := by
  unfold BaseHandler.chatId
  rw [h]
  rfl

/-- Both gates pass: a user exists, the maintenance flag is off (or the
user is superuser) and the user is active — handling proceeds with the
step phase on the post-resolution store. -/
theorem withGates_pass {db db1 : DB} {upd : TgUpdate} {u : DBUser} {st : BotStatusRec}
    (h : resolveUserObj db upd = .ok (db1, some u))
    (hbs : db.botStatus = some st)
    (hok : st.is_update = false ∨ u.is_superuser = true)
    (hact : u.is_active = true)
    (step : DB → HResult) :
    withGates db upd step = step db1 := by
  unfold withGates is_update_mode is_user_block
  rw [hbs]
  rcases hok with hflag | hsu
  · simp only [hflag, Bool.false_eq_true, if_false, Bind.bind, Except.bind, h,
      Option.some.injEq, hact]
    simp [hact]
  · simp only [Bind.bind, Except.bind]
    by_cases hflag : st.is_update = true
    · simp only [hflag, if_true, h, hsu, if_pos rfl]
      simp [resolveUserObj_idem h, hact]
    · simp only [Bool.not_eq_true] at hflag
      simp only [hflag, Bool.false_eq_true, if_false, h]
      simp [hact]

/-- Maintenance gate fires: flag set and user not superuser — exactly
the notice is sent and handling aborts. -/
theorem withGates_maint {db db1 : DB} {upd : TgUpdate} {u : DBUser} {st : BotStatusRec}
    (h : resolveUserObj db upd = .ok (db1, some u))
    (hbs : db.botStatus = some st)
    (hflag : st.is_update = true)
    (hsu : u.is_superuser = false)
    (step : DB → HResult) :
    ∃ cid, BaseHandler.chatId upd = .ok cid ∧
      withGates db upd step =
        .ok (db1, [.sendMessage cid st.update_msg (some "html") none]) := by
  obtain ⟨tu, ch, htu, hch, hty, hid, hf⟩ := resolveUserObj_found h
  refine ⟨some ch.id, chatId_of_chat hch, ?_⟩
  unfold withGates is_update_mode
  rw [hbs]
  simp only [hflag, if_true, Bind.bind, Except.bind, h, hsu, chatId_of_chat hch]
  simp

/-- Block gate fires: maintenance passes, user inactive — exactly the
block notice is sent and handling aborts. -/
theorem withGates_block {db db1 : DB} {upd : TgUpdate} {u : DBUser} {st : BotStatusRec}
    (h : resolveUserObj db upd = .ok (db1, some u))
    (hbs : db.botStatus = some st)
    (hok : st.is_update = false ∨ u.is_superuser = true)
    (hact : u.is_active = false)
    (step : DB → HResult) :
    ∃ cid, BaseHandler.chatId upd = .ok cid ∧
      withGates db upd step =
        .ok (db1, [.sendMessage cid blockedText (some "html") none]) := by
  obtain ⟨tu, ch, htu, hch, hty, hid, hf⟩ := resolveUserObj_found h
  refine ⟨some ch.id, chatId_of_chat hch, ?_⟩
  unfold withGates is_update_mode is_user_block
  rw [hbs]
  rcases hok with hflag | hsu
  · simp only [hflag, Bool.false_eq_true, if_false, Bind.bind, Except.bind, h,
      hact, chatId_of_chat hch]
    simp [hact]
  · simp only [Bind.bind, Except.bind]
    by_cases hflag : st.is_update = true
    · simp only [hflag, if_true, h, hsu, if_pos rfl]
      simp [resolveUserObj_idem h, hact, chatId_of_chat hch]
    · simp only [Bool.not_eq_true] at hflag
      simp only [hflag, Bool.false_eq_true, if_false, h]
      simp [hact, chatId_of_chat hch]

/-- Dispatch is the gate prologue followed by the routed handler's step
phase. -/
theorem dispatch_eq_gates (env : Env) (db : DB) (upd : TgUpdate) :
    Dispatcher.dispatch env db upd =
      withGates db upd (fun d => stepPhaseOf (Dispatcher.route upd) env d upd) := by
  unfold Dispatcher.dispatch
  cases h : Dispatcher.route upd <;>
    simp [CommandHandler.handle, MediaHandler.handle, MessageHandler.handle,
      CallBackQueryHandler.handle, stepPhaseOf]

/-! ## Episode-order helper lemmas -/

/-- The maximum `listMax` is `none` exactly on the empty list. -/
theorem listMax_eq_none_iff (l : List Nat) : listMax l = none ↔ l = [] := by
  cases l with
  | nil => simp [listMax]
  | cons x xs =>
    simp only [listMax]
    cases listMax xs <;> simp

/-- On a non-empty list `listMax` is the fold with `Nat.max`. -/
theorem listMax_eq_foldr (l : List Nat) (h : l ≠ []) :
    listMax l = some (l.foldr Nat.max 0) := by
  induction l with
  | nil => exact absurd rfl h
  | cons x xs ih =>
    cases xs with
    | nil => simp [listMax, Nat.max_zero]
    | cons y ys =>
      have hy := ih (by simp)
      show (match listMax (y :: ys) with
        | none => some x | some m => some (Nat.max x m)) = _
      rw [hy]
      rfl

/-- Appending one element shifts `listMax` by a `Nat.max`. -/
theorem listMax_append_single (l : List Nat) (x : Nat) :
    listMax (l ++ [x]) =
      some (match listMax l with | none => x | some m => Nat.max m x) := by
  induction l with
  | nil => rfl
  | cons y ys ih =>
    show (match listMax (ys ++ [x]) with
      | none => some y | some m => some (Nat.max y m)) = _
    rw [ih]
    cases h : listMax ys with
    | none => simp [listMax, h]
    | some m => simp [listMax, h, Nat.max_assoc]

/-- In closed form `calc_order` is 1 on an empty session, max + 1 else. -/
theorem calc_order_eq (eps : List EpisodeRec) (sid : Nat) :
    Episode.calc_order eps sid =
      (if eps.filter (fun e => e.session_id = sid) = [] then 1
       else ((eps.filter (fun e => e.session_id = sid)).map
          (fun e => e.order)).foldr Nat.max 0 + 1) := by
  unfold Episode.calc_order
  by_cases h : eps.filter (fun e => e.session_id = sid) = []
  · simp [h, listMax]
  · have hne : ((eps.filter (fun e => e.session_id = sid)).map (fun e => e.order)) ≠ [] := by
      simpa using h
    rw [listMax_eq_foldr _ hne]
    simp [h]

/-- Appending a fresh episode of the session with the freshly computed
order bumps `calc_order` by one. -/
theorem calc_order_append (eps : List EpisodeRec) (sid : Nat) (e : EpisodeRec)
    (hs : e.session_id = sid) (ho : e.order = Episode.calc_order eps sid) :
    Episode.calc_order (eps ++ [e]) sid = Episode.calc_order eps sid + 1 := by
  unfold Episode.calc_order at ho ⊢
  rw [List.filter_append, List.map_append]
  have hfe : List.filter (fun x => decide (x.session_id = sid)) [e] = [e] := by
    simp [hs]
  rw [hfe]
  simp only [List.map_cons, List.map_nil]
  rw [listMax_append_single]
  cases h : listMax ((eps.filter (fun x => decide (x.session_id = sid))).map
      (fun x => x.order)) with
  | none =>
    rw [h] at ho
    simp [h, ho]
  | some m =>
    rw [h] at ho
    have hmax : Nat.max m e.order = m + 1 := by
      rw [ho]; exact Nat.max_eq_right (Nat.le_succ m)
    simp [h, hmax, ho]

/-- Creating an episode bumps the session's next order by one. -/
theorem calc_order_after_create (env : Env) (db : DB) (sid : Nat) (mid : Option Int) :
    Episode.calc_order ((Episode.create env db sid mid).1).episodes sid =
      Episode.calc_order db.episodes sid + 1 := by
  have hep : ((Episode.create env db sid mid).1).episodes
      = db.episodes ++ [(Episode.create env db sid mid).2] := rfl
  rw [hep]
  exact calc_order_append db.episodes sid _ rfl rfl

/-- Creating episodes in sequence for one session
(`Episode.objects.create` once per uploaded media message). -/
def createMany (env : Env) (db : DB) (sid : Nat) : List (Option Int) → DB
  | [] => db
  | mid :: rest => createMany env (Episode.create env db sid mid).1 sid rest

/-- After a creation sequence the episode orders are the old ones
followed by consecutive values starting at the session's next order. -/
theorem createMany_orders (env : Env) (sid : Nat) (ps : List (Option Int)) (db : DB) :
    ((createMany env db sid ps).episodes).map (fun e => e.order) =
      db.episodes.map (fun e => e.order)
        ++ List.range' (Episode.calc_order db.episodes sid) ps.length := by
  induction ps generalizing db with
  | nil => simp [createMany]
  | cons mid rest ih =>
    rw [createMany, ih]
    have h1 : ((Episode.create env db sid mid).1).episodes.map (fun e => e.order)
        = db.episodes.map (fun e => e.order) ++ [Episode.calc_order db.episodes sid] := by
      unfold Episode.create
      simp
    rw [h1, calc_order_after_create, List.append_assoc]
    try congr 1
    try rw [List.singleton_append, List.length_cons, List.range'_succ]

/-! ## Claim theorems -/

/-- Claim C7: every Episode created for a session gets order
max-existing-plus-one (1 when the session has none), and a creation
sequence yields strictly increasing consecutive orders
(`calc_order, calc_order + 1, ...`). -/
theorem episode_order_assignment (env : Env) (db : DB) (sid : Nat) (mid : Option Int)
    (ps : List (Option Int)) :
    ((Episode.create env db sid mid).2.order =
      (if db.episodes.filter (fun e => e.session_id = sid) = [] then 1
       else ((db.episodes.filter (fun e => e.session_id = sid)).map
          (fun e => e.order)).foldr Nat.max 0 + 1))
    ∧ ((createMany env db sid ps).episodes).map (fun e => e.order) =
        db.episodes.map (fun e => e.order)
          ++ List.range' (Episode.calc_order db.episodes sid) ps.length := by
  constructor
  · have : (Episode.create env db sid mid).2.order = Episode.calc_order db.episodes sid := rfl
    rw [this, calc_order_eq]
  · exact createMany_orders env sid ps db

/-- Claim C9: every POST to the webhook endpoint — malformed payload,
deserialization failure or any exception during dispatch/handling —
answers HTTP 200 with body ok, never surfacing the error. -/
theorem webhook_always_ok (env : Env) (db : DB) (payload : Except String TgUpdate) :
    (TelegramWebhookView.post env db payload).1 = ⟨200, true⟩ := by
  unfold TelegramWebhookView.post
  cases payload with
  | error e => rfl
  | ok upd => cases hd : Dispatcher.dispatch env db upd <;> simp [hd]

/-- Claim C10: when no BotUpdateStatus row exists, `is_update_mode`
dereferences the `None` returned by `.first()` and every inbound update
raises before any step handler runs; the webhook boundary swallows the
exception and still answers 200. -/
theorem missing_bot_status_drops_updates (env : Env) (db : DB) (upd : TgUpdate)
    (h : db.botStatus = none) :
    Dispatcher.dispatch env db upd =
        .error "AttributeError: NoneType has no attribute is_update"
    ∧ TelegramWebhookView.post env db (.ok upd) = (⟨200, true⟩, none) := by
  have hd : Dispatcher.dispatch env db upd =
      .error "AttributeError: NoneType has no attribute is_update" := by
    rw [dispatch_eq_gates]
    unfold withGates is_update_mode
    rw [h]
    rfl
  refine ⟨hd, ?_⟩
  unfold TelegramWebhookView.post
  dsimp only
  rw [hd]

/-- Witness for C10: the empty store has no BotUpdateStatus row; a
trivial update is dropped with the AttributeError and the webhook still
answers 200. -/
theorem missing_bot_status_drops_updates_witness :
    Dispatcher.dispatch {} {} {} =
        .error "AttributeError: NoneType has no attribute is_update"
    ∧ TelegramWebhookView.post {} {} (.ok {}) = (⟨200, true⟩, none) :=
  missing_bot_status_drops_updates {} {} {} rfl

/-- A message whose only media field is an empty photo list. -/
def photoOnlyMsg : TgMessage where
  message_id := 1
  chat := { id := 1, type := "private" }
  photo := some []

/-- A message update whose only media field is an empty photo list
(a JSON body with photo set to the empty array deserializes to this). -/
def photoOnlyUpdate : TgUpdate := { message := some photoOnlyMsg }

/-- Claim C1 counterexample: an update whose message has a non-null
`photo` (the empty list) and no other media is routed to MessageHandler,
not MediaHandler — the dispatcher tests Python truthiness, and an empty
photo list is falsy, so "any media field non-null" overstates the code. -/
theorem route_photo_nonnull_counterexample :
    (∃ m, photoOnlyUpdate.message = some m ∧ m.photo.isSome = true ∧ m.text = none
      ∧ m.audio = none ∧ m.video = none ∧ m.voice = none
      ∧ m.document = none ∧ m.sticker = none)
    ∧ Dispatcher.route photoOnlyUpdate ≠ HandlerKind.media
    ∧ Dispatcher.route photoOnlyUpdate = HandlerKind.message := by
  decide

/-- Claim C1 (amended): the dispatch priority cascade — command when the
text starts with `/` regardless of media; else MediaHandler when any
media field is truthy (non-null, and for `photo` also non-empty); else
MessageHandler; callback queries next; MessageHandler as fallback for
unroutable updates, which raise no error and (gates passing) do
nothing. -/
theorem route_priority_cascade (env : Env) (db : DB) (upd : TgUpdate)
    (st : BotStatusRec) :
    (∀ m t, upd.message = some m → m.text = some t → strStartsWith t "/" = true →
      Dispatcher.route upd = .command)
    ∧ (∀ m, upd.message = some m →
        (m.text.map (fun t => strStartsWith t "/")).getD false = false →
        mediaTruthy m = true → Dispatcher.route upd = .media)
    ∧ (∀ m, upd.message = some m →
        (m.text.map (fun t => strStartsWith t "/")).getD false = false →
        mediaTruthy m = false → Dispatcher.route upd = .message)
    ∧ (upd.message = none → ∀ cb, upd.callback_query = some cb →
        Dispatcher.route upd = .callbackQuery)
    ∧ (upd.message = none → upd.callback_query = none →
        Dispatcher.route upd = .message)
    ∧ (upd.message = none → upd.callback_query = none → db.botStatus = some st →
        st.is_update = false → Dispatcher.dispatch env db upd = .ok (db, [])) := by
  refine ⟨?_, ?_, ?_, ?_, ?_, ?_⟩
  · intro m t hm ht hs
    unfold Dispatcher.route
    rw [hm]
    dsimp only
    rw [ht]
    simp [hs]
  · intro m hm hns hmed
    unfold Dispatcher.route
    rw [hm]
    dsimp only
    cases htx : m.text with
    | none => simp [hmed]
    | some t =>
      rw [htx] at hns
      simp at hns
      simp [hns, hmed]
  · intro m hm hns hmed
    unfold Dispatcher.route
    rw [hm]
    dsimp only
    cases htx : m.text with
    | none => simp [hmed]
    | some t =>
      rw [htx] at hns
      simp at hns
      simp [hns, hmed]
  · intro hm cb hcb
    unfold Dispatcher.route
    rw [hm, hcb]
  · intro hm hcb
    unfold Dispatcher.route
    rw [hm, hcb]
  · intro hm hcb hbs hflag
    have hroute : Dispatcher.route upd = .message := by
      unfold Dispatcher.route
      rw [hm, hcb]
    have hres : resolveUserObj db upd = .ok (db, none) := by
      unfold resolveUserObj BaseHandler.tgUser BaseHandler.chat
      rw [hm, hcb]
      cases upd.inline_query <;> simp [Bind.bind, Except.bind]
    rw [dispatch_eq_gates, hroute]
    unfold withGates is_update_mode is_user_block
    rw [hbs]
    simp only [hflag, Bool.false_eq_true, if_false, Bind.bind, Except.bind, hres]
    unfold stepPhaseOf MessageHandler.stepPhase
    simp [Bind.bind, Except.bind, hres]

/-- A plain `/start` text message in a private chat. -/
def startCmdMsg : TgMessage where
  message_id := 1
  chat := { id := 1, type := "private" }
  text := some "/start"

/-- Witness for C1 (amended): a plain `/start` text command routes to
CommandHandler; an empty update (no message, no callback query) routes
to MessageHandler and, with maintenance off, handling succeeds with no
effects. -/
theorem route_priority_cascade_witness :
    Dispatcher.route { message := some startCmdMsg } = .command
    ∧ Dispatcher.dispatch {} { botStatus := some {} } {} =
        .ok ({ botStatus := some {} }, []) := by
  constructor
  · exact (route_priority_cascade {} {} _ {}).1 _ "/start" rfl rfl (by decide)
  · exact (route_priority_cascade {} { botStatus := some {} } {} {}).2.2.2.2.2
      rfl rfl rfl rfl

/-- A text message in a group chat. -/
def groupChatMsg : TgMessage where
  message_id := 1
  chat := { id := -100, type := "group" }
  from_user := some { id := 5 }
  text := some "hi"

/-- The failing input of claim C4: maintenance flag set and a group-chat
message (no user record is resolved outside private chats). -/
def groupChatUpdate : TgUpdate := { message := some groupChatMsg }

/-- The store of claim C4's failing input: maintenance mode is on. -/
def maintenanceDb : DB :=
  { botStatus := some { is_update := true, update_msg := "maintenance" } }

/-- Claim C4 (code bug): with the maintenance flag set and no user
context (group chat), `is_update_mode` dereferences `self.user_obj`
(None) and raises AttributeError instead of treating the missing user as
not-superuser and sending the notice; the webhook boundary swallows the
crash, so the update is silently dropped without any notice. -/
theorem maintenance_gate_crashes_without_user :
    Dispatcher.dispatch {} maintenanceDb groupChatUpdate =
        .error "AttributeError: NoneType has no attribute is_superuser"
    ∧ TelegramWebhookView.post {} maintenanceDb (.ok groupChatUpdate) =
        (⟨200, true⟩, none) := by
  constructor
  · rfl
  · rfl

/-- Claim C2: step routing is two-pass (exact match first, then the
prefix before the first colon); on a full miss with a non-empty step
MessageHandler delegates the entire update to AdminMessageHandler's
router (same two-pass lookup over the admin step set), while the admin,
media and callback routers are silent no-ops on a full miss. -/
theorem step_lookup_and_delegation (env : Env) (db db1 : DB) (upd : TgUpdate)
    (u : DBUser)
    (hres : resolveUserObj db upd = .ok (db1, some u))
    (hne : u.step ≠ "") :
    (∀ f : StepFn, MessageHandler.steps.lookup u.step = some f →
      lookup2 MessageHandler.steps u.step = some f)
    ∧ (MessageHandler.steps.lookup u.step = none →
        lookup2 MessageHandler.steps u.step =
          MessageHandler.steps.lookup (prefixBeforeColon u.step))
    ∧ (lookup2 MessageHandler.steps u.step = none →
        MessageHandler.stepPhase env db upd = AdminMessageHandler.handle env db1 upd)
    ∧ (lookup2 AdminMessageHandler.steps u.step = none →
        AdminMessageHandler.stepPhase env db upd = .ok (db1, []))
    ∧ (lookup2 MediaHandler.steps u.step = none →
        MediaHandler.stepPhase env db upd = .ok (db1, []))
    ∧ (∀ cb, upd.callback_query = some cb →
        CallBackQueryHandler.callback_handlers.lookup
          ((splitColon (cb.data.getD "")).headD (cb.data.getD "")) = none →
        CallBackQueryHandler.stepPhase env db upd = .ok (db, [])) := by
  refine ⟨?_, ?_, ?_, ?_, ?_, ?_⟩
  · intro f h
    unfold lookup2
    rw [h]
  · intro h
    unfold lookup2
    rw [h]
  · intro h
    unfold MessageHandler.stepPhase
    simp only [Bind.bind, Except.bind, hres]
    rw [if_neg hne, h]
  · intro h
    unfold AdminMessageHandler.stepPhase
    simp only [Bind.bind, Except.bind, hres]
    rw [if_neg hne, h]
  · intro h
    unfold MediaHandler.stepPhase
    simp only [Bind.bind, Except.bind, hres]
    rw [if_neg hne, h]
  · intro cb hcb h
    unfold CallBackQueryHandler.stepPhase
    rw [hcb]
    dsimp only
    rw [h]

/-- The admin user of the C2 witness store. -/
def wizardUser : DBUser :=
  { pk := 1, user_id := 42, step := "get_title:movie", is_superuser := true }

/-- The C2 witness store: maintenance off, one admin user mid-wizard. -/
def wizardDb : DB :=
  { botStatus := some {}, users := [wizardUser], nextUserPk := 2 }

/-- A private-chat text message from the wizard user. -/
def wizardMsg : TgMessage where
  message_id := 9
  chat := { id := 42, type := "private" }
  from_user := some { id := 42 }
  text := some "My Movie"

/-- A text update from the wizard user. -/
def wizardUpd : TgUpdate := { message := some wizardMsg }

/-- Witness for C2: with step `get_title:movie` the primary map misses
both passes, so MessageHandler delegates to AdminMessageHandler, and the
media router is a silent no-op. -/
theorem step_lookup_and_delegation_witness :
    MessageHandler.stepPhase {} wizardDb wizardUpd =
        AdminMessageHandler.handle {} wizardDb wizardUpd
    ∧ MediaHandler.stepPhase {} wizardDb wizardUpd = .ok (wizardDb, []) := by
  have h := step_lookup_and_delegation {} wizardDb wizardDb wizardUpd wizardUser
    (by rfl) (by decide)
  exact ⟨h.2.2.1 rfl, h.2.2.2.2.1 rfl⟩

/-- Recognizer for the fixed block notice among emitted effects. -/
def isBlockedNotice : Effect → Bool
  | .sendMessage _ t _ _ => t = blockedText
  | _ => false

/-- Claim C3 (amended): with the maintenance flag set, a non-superuser's
update is answered by exactly the one maintenance notice and no step
logic runs; a superuser who is also not blocked proceeds straight to the
routed handler's step phase with no notice.  (Amendment: the block gate
still follows the maintenance gate, so a blocked superuser does not
reach the step phase.) -/
theorem maintenance_gate_short_circuit (env : Env) (db db1 : DB) (upd : TgUpdate)
    (u : DBUser) (st : BotStatusRec)
    (hres : resolveUserObj db upd = .ok (db1, some u))
    (hbs : db.botStatus = some st)
    (hflag : st.is_update = true) :
    (u.is_superuser = false →
      ∃ cid, BaseHandler.chatId upd = .ok cid ∧
        Dispatcher.dispatch env db upd =
          .ok (db1, [.sendMessage cid st.update_msg (some "html") none]))
    ∧ (u.is_superuser = true → u.is_active = true →
        Dispatcher.dispatch env db upd =
          stepPhaseOf (Dispatcher.route upd) env db1 upd) := by
  constructor
  · intro hsu
    obtain ⟨cid, hcid, hw⟩ := withGates_maint hres hbs hflag hsu
      (fun d => stepPhaseOf (Dispatcher.route upd) env d upd)
    exact ⟨cid, hcid, by rw [dispatch_eq_gates]; exact hw⟩
  · intro hsu hact
    rw [dispatch_eq_gates]
    exact withGates_pass hres hbs (Or.inr hsu) hact _

/-- A plain user (active, not superuser). -/
def plainUser : DBUser := { pk := 1, user_id := 7 }

/-- Maintenance mode on, one plain user. -/
def maintOnDb : DB :=
  { botStatus := some { is_update := true, update_msg := "maint" },
    users := [plainUser], nextUserPk := 2 }

/-- A private text message from the plain user. -/
def plainMsg : TgMessage where
  message_id := 2
  chat := { id := 7, type := "private" }
  from_user := some { id := 7 }
  text := some "hello"

/-- A text update from the plain user. -/
def plainUpd : TgUpdate := { message := some plainMsg }

/-- Witness for C3 (amended): under maintenance the plain user gets
exactly the maintenance notice. -/
theorem maintenance_gate_short_circuit_witness :
    ∃ cid, BaseHandler.chatId plainUpd = .ok cid ∧
      Dispatcher.dispatch {} maintOnDb plainUpd =
        .ok (maintOnDb, [.sendMessage cid "maint" (some "html") none]) :=
  (maintenance_gate_short_circuit {} maintOnDb maintOnDb plainUpd plainUser
    { is_update := true, update_msg := "maint" } (by rfl) rfl rfl).1 rfl

/-- A blocked superuser. -/
def blockedSuperUser : DBUser :=
  { pk := 1, user_id := 8, is_active := false, is_superuser := true }

/-- Maintenance on, one blocked superuser. -/
def blockedSuperDb : DB :=
  { botStatus := some { is_update := true, update_msg := "maint" },
    users := [blockedSuperUser], nextUserPk := 2 }

/-- A private text message from the blocked superuser. -/
def blockedSuperMsg : TgMessage where
  message_id := 3
  chat := { id := 8, type := "private" }
  from_user := some { id := 8 }
  text := some "x"

/-- A text update from the blocked superuser. -/
def blockedSuperUpd : TgUpdate := { message := some blockedSuperMsg }

/-- Claim C3 counterexample: a blocked superuser under maintenance.  The
claim says the superuser's step handler runs and no notice is sent, but
the block gate intercepts: the code emits the block notice and the step
phase (which here would do nothing) never runs. -/
theorem maintenance_superuser_counterexample :
    blockedSuperUser.is_superuser = true
    ∧ blockedSuperDb.botStatus = some { is_update := true, update_msg := "maint" }
    ∧ Dispatcher.dispatch {} blockedSuperDb blockedSuperUpd =
        .ok (blockedSuperDb, [.sendMessage (some 8) blockedText (some "html") none])
    ∧ stepPhaseOf (Dispatcher.route blockedSuperUpd) {} blockedSuperDb blockedSuperUpd =
        .ok (blockedSuperDb, [])
    ∧ Dispatcher.dispatch {} blockedSuperDb blockedSuperUpd ≠
        stepPhaseOf (Dispatcher.route blockedSuperUpd) {} blockedSuperDb blockedSuperUpd := by
  have h1 : Dispatcher.dispatch {} blockedSuperDb blockedSuperUpd =
      .ok (blockedSuperDb, [.sendMessage (some 8) blockedText (some "html") none]) := by
    rfl
  have h2 : stepPhaseOf (Dispatcher.route blockedSuperUpd) {} blockedSuperDb blockedSuperUpd =
      .ok (blockedSuperDb, []) := by
    rfl
  refine ⟨rfl, rfl, h1, h2, ?_⟩
  rw [h1, h2]
  intro h
  simp at h

/-- Claim C5 (amended): a blocked user's text update — provided the
maintenance gate does not fire first (flag off, or the user is
superuser) — runs no step logic and is answered by exactly the one block
notice.  (Amendment: with maintenance on and a non-superuser, the
maintenance notice preempts the block notice.) -/
theorem blocked_user_notice (env : Env) (db db1 : DB) (upd : TgUpdate)
    (u : DBUser) (st : BotStatusRec) (m : TgMessage) (t : String)
    (hres : resolveUserObj db upd = .ok (db1, some u))
    (hbs : db.botStatus = some st)
    (hok : st.is_update = false ∨ u.is_superuser = true)
    (hact : u.is_active = false)
    (_hm : upd.message = some m) (_ht : m.text = some t) :
    ∃ cid, BaseHandler.chatId upd = .ok cid ∧
      Dispatcher.dispatch env db upd =
        .ok (db1, [.sendMessage cid blockedText (some "html") none]) ∧
      ([Effect.sendMessage cid blockedText (some "html") none].filter
        isBlockedNotice).length = 1 := by
  obtain ⟨cid, hcid, hw⟩ := withGates_block hres hbs hok hact
    (fun d => stepPhaseOf (Dispatcher.route upd) env d upd)
  refine ⟨cid, hcid, by rw [dispatch_eq_gates]; exact hw, ?_⟩
  simp [isBlockedNotice, blockedText]

/-- A blocked plain user. -/
def blockedUser : DBUser := { pk := 1, user_id := 9, is_active := false }

/-- Maintenance off, one blocked user. -/
def blockedDb : DB :=
  { botStatus := some {}, users := [blockedUser], nextUserPk := 2 }

/-- A private text message from the blocked user. -/
def blockedMsg : TgMessage where
  message_id := 4
  chat := { id := 9, type := "private" }
  from_user := some { id := 9 }
  text := some "hello"

/-- A text update from the blocked user. -/
def blockedUpd : TgUpdate := { message := some blockedMsg }

/-- Witness for C5 (amended): with maintenance off, the blocked user's
text gets exactly the block notice. -/
theorem blocked_user_notice_witness :
    ∃ cid, BaseHandler.chatId blockedUpd = .ok cid ∧
      Dispatcher.dispatch {} blockedDb blockedUpd =
        .ok (blockedDb, [.sendMessage cid blockedText (some "html") none]) ∧
      ([Effect.sendMessage cid blockedText (some "html") none].filter
        isBlockedNotice).length = 1 :=
  blocked_user_notice {} blockedDb blockedDb blockedUpd blockedUser {}
    blockedMsg "hello" (by rfl) rfl (Or.inl rfl) rfl rfl rfl

/-- Maintenance on, same blocked user. -/
def blockedMaintDb : DB :=
  { botStatus := some { is_update := true, update_msg := "maint" },
    users := [blockedUser], nextUserPk := 2 }

/-- Claim C5 counterexample: with the maintenance flag also set, the
code sends the maintenance notice and zero block notices, so "every
update from a blocked user gets exactly one blocked notice" fails. -/
theorem blocked_notice_counterexample :
    blockedUser.is_active = false
    ∧ blockedMsg.text = some "hello"
    ∧ Dispatcher.dispatch {} blockedMaintDb blockedUpd =
        .ok (blockedMaintDb, [.sendMessage (some 9) "maint" (some "html") none])
    ∧ ([Effect.sendMessage (some 9) "maint" (some "html") none].filter
        isBlockedNotice).length = 0 := by
  refine ⟨rfl, rfl, by rfl, by decide⟩

/-- With non-null, pairwise-distinct configured chat ids, the
`chat_id__in=not_join_channel_chat_id` queryset filter recovers exactly
the unjoined channels. -/
theorem sponsor_filter_eq (env : Env) (db : DB) (cid : Option Int)
    (hsome : ∀ c ∈ db.channels, c.chat_id.isSome = true)
    (hpw : db.channels.Pairwise (fun a b => a.chat_id ≠ b.chat_id)) :
    db.channels.filter (fun c =>
      match c.chat_id with
      | none => false
      | some x =>
          ((unjoinedChannels env db cid).map (fun c => c.chat_id)).contains (some x)) =
    unjoinedChannels env db cid := by
  have hinj : ∀ c c', c ∈ db.channels → c' ∈ db.channels →
      c.chat_id = c'.chat_id → c = c' := by
    intro c c' hc hc' he
    by_contra hne
    have hsym : Symmetric (fun a b : ChannelRec => a.chat_id ≠ b.chat_id) := by
      intro a b h hba
      exact h hba.symm
    exact hpw.forall hsym hc hc' hne he
  conv_rhs => rw [unjoinedChannels]
  apply List.filter_congr
  intro x hx
  rcases Option.isSome_iff_exists.mp (hsome x hx) with ⟨a, ha⟩
  rw [ha]
  by_cases hq : (¬ x.other = true ∧ ¬ env.isJoin (some a) cid = true)
  · have hxu : x ∈ unjoinedChannels env db cid := by
      unfold unjoinedChannels
      refine List.mem_filter.mpr ⟨hx, ?_⟩
      simp [ha, hq.1, hq.2]
    have hmem : some a ∈ (unjoinedChannels env db cid).map (fun c => c.chat_id) :=
      List.mem_map.mpr ⟨x, hxu, by rw [ha]⟩
    simp [hq.1, hq.2, hmem]
  · have hnmem : some a ∉ (unjoinedChannels env db cid).map (fun c => c.chat_id) := by
      intro hmem
      rcases List.mem_map.mp hmem with ⟨c', hc'u, hc'e⟩
      have hc'f := hc'u
      unfold unjoinedChannels at hc'f
      have hc'mem : c' ∈ db.channels := (List.mem_filter.mp hc'f).1
      have hcx : c' = x := hinj c' x hc'mem hx (by rw [hc'e, ha])
      have hpred := (List.mem_filter.mp hc'f).2
      rw [hcx, ha] at hpred
      simp at hpred
      exact hq ⟨by simp [hpred.1], by simp [hpred.2]⟩
    simp [hnmem]
    intro hother
    by_contra hj
    exact hq ⟨by simp [hother], hj⟩

/-- Ordering by the `other` flag descending keeps the list non-empty. -/
theorem orderByOtherDesc_ne_nil (cs : List ChannelRec) (h : cs ≠ []) :
    orderByOtherDesc cs ≠ [] := by
  unfold orderByOtherDesc
  intro hh
  rcases List.append_eq_nil.mp hh with ⟨h1, h2⟩
  cases hcs : cs with
  | nil => exact h hcs
  | cons c cs' =>
    by_cases hc : c.other
    · have : c ∈ cs.filter (fun x => x.other) :=
        List.mem_filter.mpr ⟨by rw [hcs]; exact List.mem_cons_self c cs', by simpa using hc⟩
      rw [h1] at this
      exact List.not_mem_nil c this
    · have : c ∈ cs.filter (fun x => ¬ x.other) :=
        List.mem_filter.mpr ⟨by rw [hcs]; exact List.mem_cons_self c cs', by simpa using hc⟩
      rw [h2] at this
      exact List.not_mem_nil c this

/-- Claim C6: the sponsor gate runs the wrapped handler untouched when
no channels are configured or every non-`other` channel is joined;
otherwise it suppresses the handler and sends exactly one prompt whose
inline keyboard lists exactly the unjoined channels ordered by the
`other` flag descending plus the trailing confirm button with callback
key `joined_to_sponsor` (channel chat ids assumed non-null and pairwise
distinct, their column being unique). -/
theorem sponsor_gate_behavior (env : Env) (db : DB) (upd : TgUpdate)
    (cid : Option Int) (body : DB → HResult)
    (hcid : BaseHandler.chatId upd = .ok cid) :
    (db.channels = [] → sponsor_required env db upd body = body db)
    ∧ (unjoinedChannels env db cid = [] → sponsor_required env db upd body = body db)
    ∧ (unjoinedChannels env db cid ≠ [] →
        (∀ c ∈ db.channels, c.chat_id.isSome = true) →
        db.channels.Pairwise (fun a b => a.chat_id ≠ b.chat_id) →
        sponsor_required env db upd body =
          .ok (db, [.sendMessage cid
            (match get_message db "sponsor_channels_message" [] with
             | .ok t => t
             | .error _ => "please join in the sponsor channel")
            (some "html")
            (some (.inlineKb ((orderByOtherDesc (unjoinedChannels env db cid)).map
                (fun c => [{ text := c.name, url := some c.link : InlineBtn }])
              ++ [[{ text := "تایید عضویت ✅",
                     callback_data := some "joined_to_sponsor" }]])))])) := by
  refine ⟨?_, ?_, ?_⟩
  · intro h
    unfold sponsor_required channel_sponsor
    simp [h, Bind.bind, Except.bind]
  · intro h
    by_cases hch : db.channels.isEmpty
    · unfold sponsor_required channel_sponsor
      simp [hch, Bind.bind, Except.bind]
    · unfold sponsor_required channel_sponsor
      simp only [hch, Bool.false_eq_true, if_false, Bind.bind, Except.bind, hcid, h]
      simp
  · intro hne hsome hpw
    have hchne : db.channels ≠ [] := by
      intro hh
      apply hne
      unfold unjoinedChannels
      rw [hh]
      rfl
    have hch : db.channels.isEmpty = false := by
      cases hc : db.channels with
      | nil => exact absurd hc hchne
      | cons a l => rfl
    have hnjne : (unjoinedChannels env db cid).map (fun c => c.chat_id) ≠ [] := by
      intro hh
      exact hne (List.map_eq_nil_iff.mp hh)
    have hnj : ((unjoinedChannels env db cid).map (fun c => c.chat_id)).isEmpty = false := by
      cases hc : (unjoinedChannels env db cid).map (fun c => c.chat_id) with
      | nil => exact absurd hc hnjne
      | cons a l => rfl
    have hrows : ((orderByOtherDesc (unjoinedChannels env db cid)).map
        (fun c => [{ text := c.name, url := some c.link : InlineBtn }])).isEmpty = false := by
      have hod := orderByOtherDesc_ne_nil _ hne
      cases hc : orderByOtherDesc (unjoinedChannels env db cid) with
      | nil => exact absurd hc hod
      | cons a l => rfl
    have hcs : channel_sponsor env db upd =
        .ok (some (.sendMessage cid
          (match get_message db "sponsor_channels_message" [] with
           | .ok t => t
           | .error _ => "please join in the sponsor channel")
          (some "html")
          (some (.inlineKb ((orderByOtherDesc (unjoinedChannels env db cid)).map
              (fun c => [{ text := c.name, url := some c.link : InlineBtn }])
            ++ [[{ text := "تایید عضویت ✅",
                   callback_data := some "joined_to_sponsor" }]]))))) := by
      unfold channel_sponsor
      simp only [hch, Bool.false_eq_true, if_false, Bind.bind, Except.bind, hcid, hnj]
      rw [sponsor_filter_eq env db cid hsome hpw]
      unfold InlineKb.sponsor_channel_keyboard
      simp [hrows]
    unfold sponsor_required
    simp [hcs, Bind.bind, Except.bind]

/-- An unjoined mandatory sponsor channel. -/
def sponsorChan : ChannelRec := { name := "A", chat_id := some "c1", link := "l1" }

/-- A store with one sponsor channel configured. -/
def sponsorDb : DB := { channels := [sponsorChan] }

/-- An environment whose membership check always fails. -/
def notJoinedEnv : Env := { isJoin := fun _ _ => false }

/-- Witness for C6: with one unjoined channel the prompt with the url
row and the confirm button is sent and the handler is suppressed; with
the membership check succeeding the wrapped handler runs untouched. -/
theorem sponsor_gate_behavior_witness :
    sponsor_required notJoinedEnv sponsorDb plainUpd (fun d => .ok (d, [])) =
      .ok (sponsorDb, [.sendMessage (some 7) "please join in the sponsor channel"
        (some "html")
        (some (.inlineKb [[{ text := "A", url := some "l1" }],
          [{ text := "تایید عضویت ✅", callback_data := some "joined_to_sponsor" }]]))])
    ∧ sponsor_required {} sponsorDb plainUpd (fun d => .ok (d, [])) =
        .ok (sponsorDb, []) := by
  constructor
  · exact (sponsor_gate_behavior notJoinedEnv sponsorDb plainUpd (some 7)
      (fun d => .ok (d, [])) rfl).2.2 (by decide) (by decide) (by decide)
  · exact (sponsor_gate_behavior {} sponsorDb plainUpd (some 7)
      (fun d => .ok (d, [])) rfl).2.1 (by decide)

/-- Updating via `update_object(user, step=s)` leaves the user findable by Telegram
id with the new step. -/
theorem find?_step_update (users : List DBUser) (u : DBUser) (uid : Nat) (s : String)
    (h : users.find? (fun x => x.user_id = uid) = some u) :
    ((users.map (fun x => if x.pk = u.pk then { x with step := s } else x)).find?
      (fun x => x.user_id = uid)).map (fun x => x.step) = some s := by
  induction users with
  | nil => simp at h
  | cons y ys ih =>
    by_cases hy : y.user_id = uid
    · rw [List.find?_cons_of_pos _ (by simpa using hy)] at h
      have hh : y = u := by simpa using h
      subst hh
      rw [List.map_cons]
      rw [List.find?_cons_of_pos _ (by simp [hy])]
      simp
    · rw [List.find?_cons_of_neg _ (by simpa using hy)] at h
      rw [List.map_cons, List.find?_cons_of_neg _
        (by by_cases hpk : y.pk = u.pk <;> simp [hpk, hy])]
      exact ih h

/-- A private-chat text message from user `uid` in chat `cid`. -/
def wizardTextMsg (uid : Nat) (cid : Int) (t : String) : TgMessage where
  message_id := 10
  chat := { id := cid, type := "private" }
  from_user := some { id := uid }
  text := some t

/-- The corresponding update. -/
def wizardTextUpd (uid : Nat) (cid : Int) (t : String) : TgUpdate :=
  { message := some (wizardTextMsg uid cid t) }

/-- The session row get_title creates. -/
def wizardSession (env : Env) (db : DB) (t : String) : SessionRec :=
  { id := db.nextSessionId, title := t, content_type := "movie",
    link := generate_unique_link "S" env.rand }

/-- The store after get_title: the new session appended and the user's
step advanced to `get_episode:<new id>`. -/
def wizardResultDb (env : Env) (db : DB) (u : DBUser) (t : String) : DB :=
  { db with
    sessions := db.sessions ++ [wizardSession env db t],
    nextSessionId := db.nextSessionId + 1,
    users := db.users.map (fun x =>
      if x.pk = u.pk then
        { x with step := "get_episode:" ++ toString (wizardSession env db t).id }
      else x) }

/-- Claim C8: a user at step `get_title:movie` sending any text other
than the back keyword creates a Session with content type movie, title
the sent text and a non-empty unique `S_`-prefixed link, and the user's
step becomes `get_episode:<new session id>`. -/
theorem get_title_creates_session (env : Env) (db : DB) (uid : Nat) (cid : Int)
    (t : String) (u : DBUser) (st : BotStatusRec)
    (hbs : db.botStatus = some st) (hflag : st.is_update = false)
    (hu : db.users.find? (fun x => x.user_id = uid) = some u)
    (hstep : u.step = "get_title:movie") (hact : u.is_active = true)
    (hslash : strStartsWith t "/" = false) (hback : t ≠ "بازگشت") :
    ∃ db2 s,
      Dispatcher.dispatch env db (wizardTextUpd uid cid t) =
        .ok (db2, [.sendMessage (some cid) "لطفا فایل مورد نظر رو ارسال کن"
          (some "markdown") (some ReplyKb.cancel_keyboard)])
      ∧ db2.sessions = db.sessions ++ [s]
      ∧ s.title = t ∧ s.content_type = "movie"
      ∧ s.link = generate_unique_link "S" env.rand
      ∧ s.link ≠ "" ∧ strStartsWith s.link "S_" = true
      ∧ (db2.users.find? (fun x => x.user_id = uid)).map (fun x => x.step) =
          some ("get_episode:" ++ toString s.id)
      ∧ ((∀ s0 ∈ db.sessions, s0.link ≠ generate_unique_link "S" env.rand) →
          ∀ s0 ∈ db.sessions, s.link ≠ s0.link) := by
  have hres : resolveUserObj db (wizardTextUpd uid cid t) = .ok (db, some u) := by
    unfold resolveUserObj BaseHandler.tgUser BaseHandler.chat wizardTextUpd wizardTextMsg
    simp [Bind.bind, Except.bind, hu]
  have hroute : Dispatcher.route (wizardTextUpd uid cid t) = .message := by
    unfold Dispatcher.route wizardTextUpd wizardTextMsg mediaTruthy
    simp [hslash]
  have h1 : Dispatcher.dispatch env db (wizardTextUpd uid cid t) =
      MessageHandler.stepPhase env db (wizardTextUpd uid cid t) := by
    rw [dispatch_eq_gates, hroute]
    exact withGates_pass hres hbs (Or.inl hflag) hact _
  have h2 : MessageHandler.stepPhase env db (wizardTextUpd uid cid t) =
      AdminMessageHandler.handle env db (wizardTextUpd uid cid t) := by
    unfold MessageHandler.stepPhase
    simp only [Bind.bind, Except.bind, hres, hstep]
    rfl
  have h3 : AdminMessageHandler.handle env db (wizardTextUpd uid cid t) =
      AdminMessageHandler.stepPhase env db (wizardTextUpd uid cid t) := by
    unfold AdminMessageHandler.handle
    exact withGates_pass hres hbs (Or.inl hflag) hact _
  have h4 : AdminMessageHandler.stepPhase env db (wizardTextUpd uid cid t) =
      AdminMessageHandler.get_title env db (wizardTextUpd uid cid t) := by
    unfold AdminMessageHandler.stepPhase
    simp only [Bind.bind, Except.bind, hres, hstep]
    rfl
  have h5 : AdminMessageHandler.get_title env db (wizardTextUpd uid cid t) =
      .ok (wizardResultDb env db u t,
        [.sendMessage (some cid) "لطفا فایل مورد نظر رو ارسال کن"
          (some "markdown") (some ReplyKb.cancel_keyboard)]) := by
    unfold AdminMessageHandler.get_title
    have hmt : msgText (wizardTextUpd uid cid t) = .ok (some t) := rfl
    rw [hmt]
    simp only [Bind.bind, Except.bind]
    rw [if_neg (by simp [hback])]
    simp only [hres, Bind.bind, Except.bind, hstep]
    rfl
  refine ⟨wizardResultDb env db u t, wizardSession env db t,
    h1.trans (h2.trans (h3.trans (h4.trans h5))), rfl, rfl, rfl, rfl, ?_, ?_, ?_, ?_⟩
  · show ¬ ("S" ++ "_" ++ env.rand = "")
    intro h
    have h2 := congrArg String.data h
    simp [String.data_append] at h2
  · show strStartsWith ("S" ++ "_" ++ env.rand) "S_" = true
    simp [strStartsWith, String.data_append, List.isPrefixOf]
  · exact find?_step_update db.users u uid _ hu
  · intro hf s0 hs0 he
    exact hf s0 hs0 he.symm

/-- Witness for C8: the wizard admin at step `get_title:movie` sends
"My Movie" and a movie session with an `S_` link is created, the step
advancing to `get_episode:<id>`. -/
theorem get_title_creates_session_witness :
    ∃ db2 s,
      Dispatcher.dispatch {} wizardDb (wizardTextUpd 42 42 "My Movie") =
        .ok (db2, [.sendMessage (some 42) "لطفا فایل مورد نظر رو ارسال کن"
          (some "markdown") (some ReplyKb.cancel_keyboard)])
      ∧ db2.sessions = wizardDb.sessions ++ [s]
      ∧ s.title = "My Movie" ∧ s.content_type = "movie"
      ∧ s.link = generate_unique_link "S" ({} : Env).rand
      ∧ s.link ≠ "" ∧ strStartsWith s.link "S_" = true
      ∧ (db2.users.find? (fun x => x.user_id = 42)).map (fun x => x.step) =
          some ("get_episode:" ++ toString s.id)
      ∧ ((∀ s0 ∈ wizardDb.sessions, s0.link ≠ generate_unique_link "S" ({} : Env).rand) →
          ∀ s0 ∈ wizardDb.sessions, s.link ≠ s0.link) :=
  get_title_creates_session {} wizardDb 42 42 "My Movie" wizardUser {}
    rfl rfl (by decide) rfl rfl (by decide) (by decide)

end Uploader
